import Mathlib

/-!
Shallow embedding of print/validators.py: file-upload validation against a
print-order configuration. Pure data stands in for the file resource: the
pdf and img fields of FileObj hold the outcome that parsing the content from
offset 0 would produce (Except.error carries the exception message).
Diagnostic printing is omitted; user-visible messages are modelled by the
Msg inductive, with numeric payloads carried exactly as rationals (string
rendering such as 2-decimal formatting is presentation only).
-/

namespace PrintBackend

/-- Geometry of one PDF page: mediabox width and height in points. -/
structure Page where
  width_pt : ℚ
  height_pt : ℚ
deriving DecidableEq, Repr

/-- A parsed PDF document, as exposed by the PDF reader: its pages. -/
structure PdfDoc where
  pages : List Page
deriving DecidableEq, Repr

/-- A decoded raster image: pixel dimensions and the optional embedded
dpi pair from image.info. -/
structure ImgData where
  width_px : ℕ
  height_px : ℕ
  dpi : Option (ℚ × ℚ)
deriving DecidableEq, Repr

/-- An uploaded file resource. The pdf field is the outcome of
PyPDF2.PdfReader on the content read from offset 0, and img the outcome of
Image.open; an Except.error is a raised exception with its message. -/
structure FileObj where
  name : String
  size : ℕ
  content_type : String
  pdf : Except String PdfDoc
  img : Except String ImgData
deriving Repr

/-- The order configuration fields consumed by the validators. Optional
fields are None-able model fields; Python truthiness is modelled by the
truthy* helpers below. -/
structure Config where
  format_type : String
  small_format : Option String
  largeur : Option ℚ
  hauteur : Option ℚ
  is_book : Bool
  book_pages : Option ℕ
  duplex : String
deriving DecidableEq, Repr

/-- File metadata derived by get_file_info. -/
structure FileInfo where
  name : String
  size : ℕ
  content_type : String
  extension : String
deriving DecidableEq, Repr

/-- User-visible messages, one constructor per message produced by
validators.py, carrying the exact numeric payloads that the source
interpolates into the string. -/
inductive Msg where
  | formatNonSupporte (ext : String)
  | livrePdfRequis
  | validationPdfIndisponible
  | lecturePdfImpossible (e : String)
  | nombrePagesIncorrect (actual expected : ℕ)
  | fichierTropVolumineux (sizeMB : ℚ)
  | dimensionsPdfIncorrectes (expected_width expected_height : ℚ)
  | dimensionsImageIncorrectes (expected_width expected_height : ℚ)
  | resolutionBasse (dpi : ℚ)
  | rectoVersoImpair
deriving DecidableEq, Repr

/-- Second component returned by validate_pdf_dimensions: either a dict
(warning dict, or found/expected dict) or a plain string. -/
inductive PdfDetail where
  | warn (msg : String)
  | dims (found expected : ℚ × ℚ)
  | err (msg : String)
deriving DecidableEq, Repr

/-- The isinstance(details, dict) test on a PdfDetail. -/
def PdfDetail.isDict : PdfDetail → Bool
  | .warn _ => true
  | .dims _ _ => true
  | .err _ => false

/-- Second component returned by validate_image_dimensions: either the
found/expected/dpi dict or a plain string. -/
inductive ImgDetail where
  | dims (found expected : ℚ × ℚ) (dpi : ℚ)
  | err (msg : String)
deriving DecidableEq, Repr

/-- Verdict returned by validate_file_against_config. -/
structure Verdict where
  is_valid : Bool
  errors : List Msg
  warnings : List Msg
  file_info : FileInfo
deriving DecidableEq, Repr

/-- Python truthiness of an optional integer field (None and 0 are falsy). -/
def truthyNat : Option ℕ → Bool
  | none => false
  | some n => n != 0

/-- Python truthiness of an optional Decimal field (None and 0 are falsy). -/
def truthyQ : Option ℚ → Bool
  | none => false
  | some q => decide (q ≠ 0)

/-- Python truthiness of an optional string field (None and the empty
string are falsy). -/
def truthyStr : Option String → Bool
  | none => false
  | some s => s != ""

/-- Extension part of os.path.splitext for a bare file name: the suffix
from the last dot, unless every character before that dot is itself a dot. -/
def splitext_ext (name : String) : String :=
  let rev := name.toList.reverse
  let revSuffix := rev.takeWhile (fun ch => ch ≠ '.')
  match rev.drop revSuffix.length with
  | [] => ""
  | _ :: before =>
    if before.any (fun ch => ch ≠ '.') then
      String.mk ('.' :: revSuffix.reverse)
    else ""

/-- Lowercasing of one character as str.lower acts on the ASCII range
(the only range exercised by the extension strings). -/
def charLower (c : Char) : Char :=
  if 'A' ≤ c ∧ c ≤ 'Z' then Char.ofNat (c.toNat + 32) else c

/-- str.lower on a string, character by character. -/
def strLower (s : String) : String :=
  String.mk (s.toList.map charLower)

/-- Dimensions standards (en mm). -/
def FORMAT_DIMENSIONS : String → Option (ℚ × ℚ)
  | "A3" => some (297, 420)
  | "A4" => some (210, 297)
  | "A5" => some (148, 210)
  | _ => none

/-- Tolerance en mm. -/
def TOLERANCE_MM : ℚ := 2

/-- get_file_info: extracts name, size, content type and lowercased
extension from the file object. -/
def get_file_info (f : FileObj) : FileInfo :=
  { name := f.name
    size := f.size
    content_type := f.content_type
    extension := strLower (splitext_ext f.name) }

/-- validate_pdf_dimensions: checks the first-page dimensions of a PDF
against an expected size in mm, converting points to mm with the factor
0.352778 and portrait-normalizing the extracted pair only. -/
def validate_pdf_dimensions (pdf2_available : Bool) (f : FileObj)
    (expected_width expected_height : ℚ) : Bool × PdfDetail :=
  if pdf2_available = false then
    (true, .warn "PyPDF2 non disponible, validation des dimensions PDF ignoree")
  else
    match f.pdf with
    | .error e => (false, .err ("Erreur lecture PDF: " ++ e))
    | .ok doc =>
      match doc.pages with
      | [] => (false, .err "PDF vide")
      | page :: _ =>
        let width_mm := page.width_pt * (352778 / 1000000 : ℚ)
        let height_mm := page.height_pt * (352778 / 1000000 : ℚ)
        let p := if width_mm > height_mm then (height_mm, width_mm)
                 else (width_mm, height_mm)
        let width_ok := decide (|p.1 - expected_width| ≤ TOLERANCE_MM)
        let height_ok := decide (|p.2 - expected_height| ≤ TOLERANCE_MM)
        (width_ok && height_ok, .dims p (expected_width, expected_height))

/-- validate_image_dimensions: checks the pixel dimensions of an image
against an expected size in mm, converting both axes with the horizontal
dpi (default pair (72, 72)) and portrait-normalizing the extracted pair
only. Decode failure is caught and returned as a string detail. -/
def validate_image_dimensions (f : FileObj)
    (expected_width expected_height : ℚ) : Bool × ImgDetail :=
  match f.img with
  | .error e => (false, .err ("Erreur lecture image: " ++ e))
  | .ok im =>
    let dpi := im.dpi.getD (72, 72)
    let dpi_horizontal := dpi.1
    let wh :=
      if dpi_horizontal > 0 then
        (((im.width_px : ℚ) * (254 / 10)) / dpi_horizontal,
         ((im.height_px : ℚ) * (254 / 10)) / dpi_horizontal)
      else
        (((im.width_px : ℚ) * (254 / 10)) / 72,
         ((im.height_px : ℚ) * (254 / 10)) / 72)
    let p := if wh.1 > wh.2 then (wh.2, wh.1) else wh
    let width_ok := decide (|p.1 - expected_width| ≤ TOLERANCE_MM)
    let height_ok := decide (|p.2 - expected_height| ≤ TOLERANCE_MM)
    (width_ok && height_ok, .dims p (expected_width, expected_height) dpi_horizontal)

/-- get_expected_dimensions: standard table value for a known small
format, largeur/hauteur converted from cm to mm for the large format,
None otherwise (Python truthiness for the optional fields). -/
def get_expected_dimensions (c : Config) : Option (ℚ × ℚ) :=
  if c.format_type = "petit" ∧ truthyStr c.small_format then
    FORMAT_DIMENSIONS (c.small_format.getD "")
  else if c.format_type = "grand" then
    if truthyQ c.largeur ∧ truthyQ c.hauteur then
      some ((c.largeur.getD 0) * 10, (c.hauteur.getD 0) * 10)
    else none
  else none

/-- Errors of step 1 of validate_file_against_config: the always-run
extension check. -/
def formatCheckErrors (fi : FileInfo) : List Msg :=
  if fi.extension ∈ ([".pdf", ".jpg", ".jpeg", ".png"] : List String) then []
  else [.formatNonSupporte fi.extension]

/-- Errors of the page-count part of step 2 of
validate_file_against_config, run when is_book and the extension is .pdf:
requires book_pages truthy; hard error when the PDF capability is missing;
otherwise exact comparison of the parsed page count. -/
def bookPageCountErrors (pdf2_available : Bool) (f : FileObj) (c : Config) :
    List Msg :=
  if truthyNat c.book_pages then
    if pdf2_available = false then [.validationPdfIndisponible]
    else
      match f.pdf with
      | .error e => [.lecturePdfImpossible e]
      | .ok doc =>
        if doc.pages.length ≠ c.book_pages.getD 0 then
          [.nombrePagesIncorrect doc.pages.length (c.book_pages.getD 0)]
        else []
  else []

/-- Errors of step 3 of validate_file_against_config: the 10 MiB size
limit, run only when no errors have accumulated; the message carries the
size in MB (rendered to 2 decimal places by the source). -/
def sizeCheckErrors (errorsSoFar : List Msg) (fi : FileInfo) : List Msg :=
  if errorsSoFar = [] then
    if fi.size > 10 * 1024 * 1024 then
      [.fichierTropVolumineux ((fi.size : ℚ) / 1024 / 1024)]
    else []
  else []

/-- Step 4 of validate_file_against_config: the dimension check, run only
when an expectation exists, the PDF capability is available and no errors
have accumulated; returns the (errors, warnings) it appends. -/
def dimensionCheck (pdf2_available : Bool) (f : FileObj) (c : Config)
    (errorsSoFar : List Msg) (fi : FileInfo) : List Msg × List Msg :=
  match get_expected_dimensions c with
  | none => ([], [])
  | some (expected_width, expected_height) =>
    if pdf2_available ∧ errorsSoFar = [] then
      if fi.extension = ".pdf" then
        let r := validate_pdf_dimensions pdf2_available f expected_width expected_height
        (if r.1 = false ∧ r.2.isDict = false then
           [.dimensionsPdfIncorrectes expected_width expected_height]
         else [], [])
      else if fi.extension ∈ ([".jpg", ".jpeg", ".png"] : List String) then
        let r := validate_image_dimensions f expected_width expected_height
        ((if r.1 = false then
            [.dimensionsImageIncorrectes expected_width expected_height]
          else []),
         (match r.2 with
          | .dims _ _ d => if d < 150 then [.resolutionBasse d] else []
          | .err _ => []))
      else ([], [])
    else ([], [])

/-- Warnings of step 5 of validate_file_against_config: the recto/verso
parity advisory for books. -/
def duplexWarnings (c : Config) : List Msg :=
  if c.duplex = "recto_verso" ∧ c.is_book ∧ truthyNat c.book_pages
      ∧ (c.book_pages.getD 0) % 2 ≠ 0 then
    [.rectoVersoImpair]
  else []

/-- validate_file_against_config: the main validation pipeline. Steps 1-5
in source order, with the single short-circuit return when a book order
carries a non-PDF file. -/
def validate_file_against_config (pdf2_available : Bool) (f : FileObj)
    (c : Config) : Verdict :=
  let fi := get_file_info f
  let errors1 := formatCheckErrors fi
  if c.is_book ∧ fi.extension ≠ ".pdf" then
    { is_valid := false
      errors := errors1 ++ [.livrePdfRequis]
      warnings := []
      file_info := fi }
  else
    let errors2 := errors1 ++
      (if c.is_book then bookPageCountErrors pdf2_available f c else [])
    let errors3 := errors2 ++ sizeCheckErrors errors2 fi
    let dim := dimensionCheck pdf2_available f c errors3 fi
    let errors4 := errors3 ++ dim.1
    let warnings := dim.2 ++ duplexWarnings c
    { is_valid := errors4.isEmpty
      errors := errors4
      warnings := warnings
      file_info := fi }

/-- Modelled from the spec: the Unit Converter function
pixels_to_mm(pixels, dpi) = (pixels * 25.4) / dpi, substituting a default
of 72 when dpi ≤ 0. Stated from the spec wording, to be compared with the
inline conversion of validate_image_dimensions. -/
def pixels_to_mm (pixels dpi : ℚ) : ℚ :=
  (pixels * (254 / 10)) / (if dpi ≤ 0 then 72 else dpi)

/-! ### Concrete fixtures used by witnesses and counterexamples -/

/-- A book order configured as small format A4 with 100 pages. -/
def configBookA4 : Config :=
  { format_type := "petit", small_format := some "A4", largeur := none,
    hauteur := none, is_book := true, book_pages := some 100,
    duplex := "recto" }

/-- A plain text upload (unsupported extension). -/
def fileTxt : FileObj :=
  { name := "notes.txt", size := 1000, content_type := "text/plain",
    pdf := .error "not a pdf", img := .error "not an image" }

/-- A png upload whose content neither parses as PDF nor decodes. -/
def filePng : FileObj :=
  { name := "photo.PNG", size := 1000, content_type := "image/png",
    pdf := .error "not a pdf", img := .error "cannot identify image file" }

/-! ### Helper lemmas -/

/-- Every message produced by the format check is a formatNonSupporte. -/
theorem formatCheckErrors_shape (fi : FileInfo) (m : Msg)
    (h : m ∈ formatCheckErrors fi) : ∃ e, m = .formatNonSupporte e := by
  unfold formatCheckErrors at h
  split at h
  · simp at h
  · simp at h
    exact ⟨fi.extension, h⟩

/-- Every message produced by the book page-count check is one of its
three error messages. -/
theorem bookPageCountErrors_shape (a : Bool) (f : FileObj) (c : Config)
    (m : Msg) (h : m ∈ bookPageCountErrors a f c) :
    m = .validationPdfIndisponible ∨ (∃ e, m = .lecturePdfImpossible e) ∨
      ∃ x y, m = .nombrePagesIncorrect x y := by
  unfold bookPageCountErrors at h
  split at h
  · split at h
    · simp at h
      exact Or.inl h
    · split at h
      · simp at h
        exact Or.inr (Or.inl ⟨_, h⟩)
      · simp at h
        exact Or.inr (Or.inr ⟨_, _, h.2⟩)
  · simp at h

/-- Every message produced by the size check is a fichierTropVolumineux. -/
theorem sizeCheckErrors_shape (errs : List Msg) (fi : FileInfo) (m : Msg)
    (h : m ∈ sizeCheckErrors errs fi) : ∃ q, m = .fichierTropVolumineux q := by
  unfold sizeCheckErrors at h
  split at h
  · split at h
    · simp at h
      exact ⟨_, h⟩
    · simp at h
  · simp at h

/-- Every error produced by the dimension check is a dimension error. -/
theorem dimensionCheck_fst_shape (a : Bool) (f : FileObj) (c : Config)
    (errs : List Msg) (fi : FileInfo) (m : Msg)
    (h : m ∈ (dimensionCheck a f c errs fi).1) :
    (∃ w hh, m = .dimensionsPdfIncorrectes w hh) ∨
      ∃ w hh, m = .dimensionsImageIncorrectes w hh := by
  unfold dimensionCheck at h
  split at h
  · simp at h
  · split at h
    · split at h
      · simp at h
        exact Or.inl ⟨_, _, h.2⟩
      · split at h
        · simp at h
          exact Or.inr ⟨_, _, h.2⟩
        · simp at h
    · simp at h

/-- Every warning produced by the dimension check is a resolutionBasse. -/
theorem dimensionCheck_snd_shape (a : Bool) (f : FileObj) (c : Config)
    (errs : List Msg) (fi : FileInfo) (m : Msg)
    (h : m ∈ (dimensionCheck a f c errs fi).2) : ∃ d, m = .resolutionBasse d := by
  unfold dimensionCheck at h
  split at h
  · simp at h
  · split at h
    · split at h
      · simp at h
      · split at h
        · simp only at h
          rcases hrd : (validate_image_dimensions f _ _).2 with ⟨fo, ex, d⟩ | e
          · rw [hrd] at h
            simp at h
            exact ⟨_, h.2⟩
          · rw [hrd] at h
            simp at h
        · simp at h
    · simp at h

/-- Every message produced by the duplex advisory is rectoVersoImpair. -/
theorem duplexWarnings_shape (c : Config) (m : Msg)
    (h : m ∈ duplexWarnings c) : m = .rectoVersoImpair := by
  unfold duplexWarnings at h
  split at h
  · simp at h
    exact h
  · simp at h

/-- Unfolding of the pipeline on the short-circuit path. -/
theorem validate_early (a : Bool) (f : FileObj) (c : Config)
    (hb : c.is_book = true)
    (he : (get_file_info f).extension ≠ ".pdf") :
    validate_file_against_config a f c =
      { is_valid := false
        errors := formatCheckErrors (get_file_info f) ++ [.livrePdfRequis]
        warnings := []
        file_info := get_file_info f } := by
  unfold validate_file_against_config
  rw [if_pos ⟨hb, he⟩]

/-- Errors accumulated through step 2 of the pipeline, for stating the
stage-conditioned claims. -/
def errorsThroughStep2 (a : Bool) (f : FileObj) (c : Config) : List Msg :=
  formatCheckErrors (get_file_info f) ++
    (if c.is_book then bookPageCountErrors a f c else [])

/-- Errors accumulated through step 3 of the pipeline. -/
def errorsThroughStep3 (a : Bool) (f : FileObj) (c : Config) : List Msg :=
  errorsThroughStep2 a f c ++
    sizeCheckErrors (errorsThroughStep2 a f c) (get_file_info f)

/-- Unfolding of the pipeline on the non-short-circuit path. -/
theorem validate_not_early (a : Bool) (f : FileObj) (c : Config)
    (h : ¬(c.is_book = true ∧ (get_file_info f).extension ≠ ".pdf")) :
    validate_file_against_config a f c =
      { is_valid := (errorsThroughStep3 a f c ++
          (dimensionCheck a f c (errorsThroughStep3 a f c) (get_file_info f)).1).isEmpty
        errors := errorsThroughStep3 a f c ++
          (dimensionCheck a f c (errorsThroughStep3 a f c) (get_file_info f)).1
        warnings := (dimensionCheck a f c (errorsThroughStep3 a f c) (get_file_info f)).2
          ++ duplexWarnings c
        file_info := get_file_info f } := by
  unfold validate_file_against_config
  rw [if_neg h]
  simp only [errorsThroughStep3, errorsThroughStep2, List.append_assoc]

/-! ### C1 -/

/-- C1: a book order with a non-PDF extension short-circuits: the verdict
is returned immediately with is_valid false and no warnings, its errors
being the format-check errors followed by the book-format error; when the
extension is one of the accepted image extensions (such as .png) the
book-format error is the only error. The claim as frozen states the book
error is always the only error; that fails for unsupported extensions
(see the counterexample), so this is the amended form. -/
theorem c1_book_short_circuit (a : Bool) (f : FileObj) (c : Config)
    (hb : c.is_book = true)
    (he : (get_file_info f).extension ≠ ".pdf") :
    validate_file_against_config a f c =
      { is_valid := false
        errors := formatCheckErrors (get_file_info f) ++ [.livrePdfRequis]
        warnings := []
        file_info := get_file_info f } ∧
    ((get_file_info f).extension ∈ ([".jpg", ".jpeg", ".png"] : List String) →
      (validate_file_against_config a f c).errors = [.livrePdfRequis]) := by
  refine ⟨validate_early a f c hb he, fun him => ?_⟩
  rw [validate_early a f c hb he]
  have hfmt : formatCheckErrors (get_file_info f) = [] := by
    unfold formatCheckErrors
    rw [if_pos]
    simp only [List.mem_cons, List.not_mem_nil, or_false] at him ⊢
    tauto
  simp [hfmt]

/-- C1 counterexample: a book order with a .txt file returns two errors
(the unsupported-format error and the book-format error), not only the
book-format error as the frozen claim states. -/
theorem c1_counterexample :
    (validate_file_against_config true fileTxt configBookA4).errors =
      [.formatNonSupporte ".txt", .livrePdfRequis] ∧
    (validate_file_against_config true fileTxt configBookA4).errors.length = 2 := by
  rw [validate_early true fileTxt configBookA4 rfl (by decide)]
  constructor
  · simp [formatCheckErrors, get_file_info, fileTxt]
    rfl
  · simp [formatCheckErrors, get_file_info, fileTxt]
    rfl

/-- C1 witness: the amended theorem applied to a book order with a .png
file: the verdict is invalid with exactly the book-format error and no
warnings, all later stages skipped. -/
theorem c1_witness :
    (validate_file_against_config true filePng configBookA4).errors =
      [.livrePdfRequis] ∧
    (validate_file_against_config true filePng configBookA4).warnings = [] ∧
    (validate_file_against_config true filePng configBookA4).is_valid = false := by
  have h := c1_book_short_circuit true filePng configBookA4 rfl (by decide)
  refine ⟨h.2 (by decide), ?_, ?_⟩
  · rw [h.1]
  · rw [h.1]

/-! ### C2 -/

/-- A config ordering a small-format A4 print, not a book. -/
def configSmallA4 : Config :=
  { format_type := "petit", small_format := some "A4", largeur := none,
    hauteur := none, is_book := false, book_pages := none,
    duplex := "recto" }

/-- A PDF upload whose single page mediabox is 210pt by 297pt, that is
about 74.1mm by 104.8mm. -/
def filePdf210pt : FileObj :=
  { name := "doc.pdf", size := 1000, content_type := "application/pdf",
    pdf := .ok ⟨[⟨210, 297⟩]⟩, img := .error "not an image" }

/-- C2: the dimension extractor reports a mismatch for a 210pt by 297pt
PDF page checked against A4 (210mm by 297mm), yet the pipeline appends no
error at all and the verdict is valid: the error branch fires only when
the detail is not a dict, and a genuine mismatch returns a dict. The
frozen claim says a formatted error naming the expected size is appended;
the code does not do so on mismatch, contradicting both the spec and the
text of its own error message. -/
theorem c2_pdf_mismatch_appends_no_error :
    (validate_pdf_dimensions true filePdf210pt 210 297).1 = false ∧
    validate_file_against_config true filePdf210pt configSmallA4 =
      { is_valid := true
        errors := []
        warnings := []
        file_info := { name := "doc.pdf", size := 1000,
                       content_type := "application/pdf",
                       extension := ".pdf" } } := by
  constructor
  · norm_num [validate_pdf_dimensions, filePdf210pt, TOLERANCE_MM, abs_le]
  · rw [validate_not_early true filePdf210pt configSmallA4 (by decide)]
    have hfi : get_file_info filePdf210pt =
        { name := "doc.pdf", size := 1000,
          content_type := "application/pdf", extension := ".pdf" } := by rfl
    have h3 : errorsThroughStep3 true filePdf210pt configSmallA4 = [] := by
      simp [errorsThroughStep3, errorsThroughStep2, formatCheckErrors,
        sizeCheckErrors, hfi, configSmallA4]
    have hdim : dimensionCheck true filePdf210pt configSmallA4 [] (get_file_info filePdf210pt) =
        ([], []) := by
      have hexp : get_expected_dimensions configSmallA4 = some (210, 297) := by
        simp [get_expected_dimensions, configSmallA4, truthyStr, FORMAT_DIMENSIONS]
      unfold dimensionCheck
      rw [hexp]
      simp only [hfi]
      norm_num [validate_pdf_dimensions, filePdf210pt, TOLERANCE_MM, abs_le,
        PdfDetail.isDict, duplexWarnings]
    rw [h3, hdim]
    simp [duplexWarnings, configSmallA4, hfi]

/-! ### C3 -/

/-- Portrait normalization of a pair is symmetric in its arguments. -/
theorem normalizePair_comm (x y : ℚ) :
    (if x > y then (y, x) else (x, y)) = (if y > x then (x, y) else (y, x)) := by
  rcases lt_trichotomy x y with h | h | h
  · rw [if_neg (not_lt.mpr h.le), if_pos h]
  · subst h
    simp
  · rw [if_pos h, if_neg (not_lt.mpr h.le)]

/-- A PDF upload whose single page is 595pt by 842pt, which converts to
about 209.9mm by 297.0mm, a portrait A4 page. -/
def filePdfA4 : FileObj :=
  { name := "doc.pdf", size := 1000, content_type := "application/pdf",
    pdf := .ok ⟨[⟨595, 842⟩]⟩, img := .error "not an image" }

/-- The same page in landscape orientation, 842pt by 595pt. -/
def filePdfA4Landscape : FileObj :=
  { name := "scan.pdf", size := 1000, content_type := "application/pdf",
    pdf := .ok ⟨[⟨842, 595⟩]⟩, img := .error "not an image" }

/-- A portrait image, 2480 by 3508 pixels at 300 dpi. -/
def fileImgPortrait : FileObj :=
  { name := "scan.jpg", size := 1000, content_type := "image/jpeg",
    pdf := .error "not a pdf", img := .ok ⟨2480, 3508, some (300, 300)⟩ }

/-- The same image scanned in landscape, 3508 by 2480 pixels at 300 dpi. -/
def fileImgLandscape : FileObj :=
  { name := "scan.jpg", size := 1000, content_type := "image/jpeg",
    pdf := .error "not a pdf", img := .ok ⟨3508, 2480, some (300, 300)⟩ }

/-- C3 counterexample: the expected pair is not normalized. A portrait A4
PDF (595pt by 842pt) matches the expected pair written portrait (210, 297)
but fails against the same expectation written landscape (297, 210), so
the match outcome is not invariant under giving the expected size in
landscape order, refuting the frozen claim at this input. -/
theorem c3_counterexample :
    (validate_pdf_dimensions true filePdfA4 210 297).1 = true ∧
    (validate_pdf_dimensions true filePdfA4 297 210).1 = false := by
  constructor <;>
    norm_num [validate_pdf_dimensions, filePdfA4, TOLERANCE_MM, abs_le]

/-- C3 amended: portrait normalization is applied to the extracted size
only. Consequently the match outcome is invariant under swapping the
dimensions of the file itself - a landscape scan can match a portrait
target - for the PDF extractor and the image extractor alike; invariance
under swapping the expected pair fails (see the counterexample). -/
theorem c3_extracted_side_normalization (a : Bool) (f g : FileObj)
    (w h ew eh : ℚ) (ps : List Page)
    (hf : f.pdf = .ok ⟨⟨w, h⟩ :: ps⟩) (hg : g.pdf = .ok ⟨⟨h, w⟩ :: ps⟩) :
    validate_pdf_dimensions a f ew eh = validate_pdf_dimensions a g ew eh ∧
    (∀ (fi gi : FileObj) (wp hp : ℕ) (d : Option (ℚ × ℚ)),
      fi.img = .ok ⟨wp, hp, d⟩ → gi.img = .ok ⟨hp, wp, d⟩ →
      validate_image_dimensions fi ew eh = validate_image_dimensions gi ew eh) := by
  constructor
  · unfold validate_pdf_dimensions
    rcases a with _ | _
    · rfl
    · simp only [hf, hg]
      rw [normalizePair_comm]
  · intro fi gi wp hp d hfi hgi
    unfold validate_image_dimensions
    simp only [hfi, hgi]
    split
    · rw [normalizePair_comm]
    · rw [normalizePair_comm]

/-- C3 witness: the amended theorem applied to the concrete A4 page and
its landscape twin, and to the 300 dpi scan and its landscape twin. -/
theorem c3_witness :
    validate_pdf_dimensions true filePdfA4 210 297 =
      validate_pdf_dimensions true filePdfA4Landscape 210 297 ∧
    validate_image_dimensions fileImgPortrait 210 297 =
      validate_image_dimensions fileImgLandscape 210 297 := by
  have h := c3_extracted_side_normalization true filePdfA4 filePdfA4Landscape
    595 842 210 297 [] rfl rfl
  exact ⟨h.1, h.2 fileImgPortrait fileImgLandscape 2480 3508 (some (300, 300)) rfl rfl⟩

/-! ### C4 -/

/-- A large-format config with largeur 0 cm: present but falsy in Python. -/
def configGrandZero : Config :=
  { format_type := "grand", small_format := none, largeur := some 0,
    hauteur := some 21, is_book := false, book_pages := none,
    duplex := "recto" }

/-- A large-format config with largeur 21 cm and hauteur 29.7 cm. -/
def configGrand21x297 : Config :=
  { format_type := "grand", small_format := none, largeur := some 21,
    hauteur := some (297 / 10), is_book := false, book_pages := none,
    duplex := "recto" }

/-- A small-format config with no small_format key: no expectation. -/
def configNoExpectation : Config :=
  { format_type := "petit", small_format := none, largeur := some 21,
    hauteur := some (297 / 10), is_book := false, book_pages := none,
    duplex := "recto" }

/-- C4 amended: the dimension resolver returns the standard table value
for format_type petit (the spec calls it small) with a known standard
key; returns (largeur x 10, hauteur x 10) for format_type grand (the spec
calls it large) when largeur and hauteur are both present AND nonzero
(Python truthiness, which the frozen claim misses - see the
counterexample); when neither case applies it returns no expectation and
the dimension stage of the pipeline appends nothing. -/
theorem c4_expected_dimensions :
    (∀ (c : Config) (k : String) (d : ℚ × ℚ),
      c.format_type = "petit" → c.small_format = some k →
      FORMAT_DIMENSIONS k = some d → get_expected_dimensions c = some d) ∧
    (∀ (c : Config) (l hq : ℚ),
      c.format_type = "grand" → c.largeur = some l → l ≠ 0 →
      c.hauteur = some hq → hq ≠ 0 →
      get_expected_dimensions c = some (l * 10, hq * 10)) ∧
    (∀ c : Config,
      (¬ ∃ k d, c.format_type = "petit" ∧ c.small_format = some k ∧
        FORMAT_DIMENSIONS k = some d) →
      ¬ (c.format_type = "grand" ∧ truthyQ c.largeur = true ∧
        truthyQ c.hauteur = true) →
      get_expected_dimensions c = none) ∧
    (∀ (a : Bool) (f : FileObj) (c : Config) (errs : List Msg) (fi : FileInfo),
      get_expected_dimensions c = none → dimensionCheck a f c errs fi = ([], [])) := by
  refine ⟨?_, ?_, ?_, ?_⟩
  · intro c k d h1 h2 h3
    have hk : k ≠ "" := by
      intro hke
      rw [hke] at h3
      simp [FORMAT_DIMENSIONS] at h3
    simp [get_expected_dimensions, h1, h2, truthyStr, bne_iff_ne, hk, h3]
  · intro c l hq h1 h2 h3 h4 h5
    simp [get_expected_dimensions, h1, h2, h4, truthyQ, h3, h5]
  · intro c hna hnb
    unfold get_expected_dimensions
    split
    · rename_i hcond
      rcases hs : c.small_format with _ | k
      · rw [hs] at hcond
        simp [truthyStr] at hcond
      · rcases hF : FORMAT_DIMENSIONS k with _ | d
        · simpa using hF
        · exact absurd ⟨k, d, hcond.1, hs, hF⟩ hna
    · split
      · rename_i hg
        split
        · rename_i ht
          exact absurd ⟨hg, ht.1, ht.2⟩ hnb
        · rfl
      · rfl
  · intro a f c errs fi hnone
    simp [dimensionCheck, hnone]

/-- C4 counterexample: format_type grand with largeur present but equal
to 0 and hauteur present: the resolver returns no expectation, not
(0 x 10, hauteur x 10) as the frozen claim (both fields present) demands. -/
theorem c4_counterexample :
    get_expected_dimensions configGrandZero = none ∧
    get_expected_dimensions configGrandZero ≠ some (0 * 10, 21 * 10) := by
  have h : get_expected_dimensions configGrandZero = none := by
    simp [get_expected_dimensions, configGrandZero, truthyQ, truthyStr]
  exact ⟨h, by rw [h]; simp⟩

/-- C4 witness: the amended theorem applied to the three concrete
configurations: a known A4 key, a 21 x 29.7 cm custom size, and a config
with no expectation (whose dimension stage appends nothing). -/
theorem c4_witness :
    get_expected_dimensions configSmallA4 = some (210, 297) ∧
    get_expected_dimensions configGrand21x297 = some (21 * 10, (297 / 10) * 10) ∧
    get_expected_dimensions configNoExpectation = none ∧
    dimensionCheck true filePng configNoExpectation []
      (get_file_info filePng) = ([], []) := by
  obtain ⟨h1, h2, h3, h4⟩ := c4_expected_dimensions
  have hno : get_expected_dimensions configNoExpectation = none := by
    refine h3 configNoExpectation ?_ ?_
    · rintro ⟨k, d, -, hk, -⟩
      simp [configNoExpectation] at hk
    · rintro ⟨hg, -, -⟩
      simp [configNoExpectation] at hg
  refine ⟨h1 configSmallA4 "A4" (210, 297) rfl rfl rfl,
    h2 configGrand21x297 21 (297 / 10) rfl rfl (by norm_num) rfl (by norm_num),
    hno,
    h4 true filePng configNoExpectation [] (get_file_info filePng) hno⟩

/-! ### C5 -/

/-- C5 counterexample: with the PDF capability unavailable, a run with a
dimension expectation in place (A4) and a parsable A4 PDF yields a verdict
with NO warning at all: the dimension stage is skipped entirely, so the
verdict does not gain a warning as the frozen claim states. -/
theorem c5_counterexample :
    get_expected_dimensions configSmallA4 = some (210, 297) ∧
    validate_file_against_config false filePdfA4 configSmallA4 =
      { is_valid := true
        errors := []
        warnings := []
        file_info := { name := "doc.pdf", size := 1000,
                       content_type := "application/pdf",
                       extension := ".pdf" } } := by
  constructor
  · simp [get_expected_dimensions, configSmallA4, truthyStr, FORMAT_DIMENSIONS]
  · rw [validate_not_early false filePdfA4 configSmallA4 (by decide)]
    have hfi : get_file_info filePdfA4 =
        { name := "doc.pdf", size := 1000,
          content_type := "application/pdf", extension := ".pdf" } := by rfl
    have h3 : errorsThroughStep3 false filePdfA4 configSmallA4 = [] := by
      simp [errorsThroughStep3, errorsThroughStep2, formatCheckErrors,
        sizeCheckErrors, hfi, configSmallA4]
    have hdim : dimensionCheck false filePdfA4 configSmallA4 []
        (get_file_info filePdfA4) = ([], []) := by
      unfold dimensionCheck
      split
      · rfl
      · rw [if_neg]
        simp
    rw [h3, hdim]
    simp [duplexWarnings, configSmallA4, hfi]

/-- C5 amended: when the PDF capability is unavailable, the PDF dimension
extractor itself returns success with a warning dict rather than a
failure; the pipeline however skips the whole dimension stage (so the
verdict gains neither a warning nor an error from it); and in the book
page-count check unavailability appends the hard error, as the claim
states. -/
theorem c5_capability_unavailable :
    (∀ (f : FileObj) (ew eh : ℚ),
      validate_pdf_dimensions false f ew eh =
        (true, .warn "PyPDF2 non disponible, validation des dimensions PDF ignoree")) ∧
    (∀ (f : FileObj) (c : Config) (errs : List Msg) (fi : FileInfo),
      dimensionCheck false f c errs fi = ([], [])) ∧
    (∀ (f : FileObj) (c : Config), truthyNat c.book_pages = true →
      bookPageCountErrors false f c = [.validationPdfIndisponible]) := by
  refine ⟨fun f ew eh => rfl, ?_, ?_⟩
  · intro f c errs fi
    unfold dimensionCheck
    split
    · rfl
    · rw [if_neg]
      simp
  · intro f c ht
    simp [bookPageCountErrors, ht]

/-- C5 witness: the amended theorem applied to the A4 PDF file, the A4
config and the book config with 100 pages. -/
theorem c5_witness :
    validate_pdf_dimensions false filePdfA4 210 297 =
      (true, .warn "PyPDF2 non disponible, validation des dimensions PDF ignoree") ∧
    dimensionCheck false filePdfA4 configSmallA4 []
      (get_file_info filePdfA4) = ([], []) ∧
    bookPageCountErrors false filePdfA4 configBookA4 =
      [.validationPdfIndisponible] := by
  obtain ⟨h1, h2, h3⟩ := c5_capability_unavailable
  exact ⟨h1 filePdfA4 210 297,
    h2 filePdfA4 configSmallA4 [] (get_file_info filePdfA4),
    h3 filePdfA4 configBookA4 (by rfl)⟩

/-! ### C6 -/

/-- A PDF upload one byte over the 10 MiB limit. -/
def fileBig : FileObj :=
  { name := "big.pdf", size := 10 * 1024 * 1024 + 1,
    content_type := "application/pdf",
    pdf := .error "not parsed", img := .error "not an image" }

/-- A PDF upload of exactly 10 MiB. -/
def fileExact10MiB : FileObj :=
  { name := "big.pdf", size := 10 * 1024 * 1024,
    content_type := "application/pdf",
    pdf := .error "not parsed", img := .error "not an image" }

/-- C6: on any non-short-circuited run, a size error appears in the
verdict if and only if no errors accumulated through steps 1 and 2 and
the file size strictly exceeds 10 MiB (10 x 1024 x 1024 bytes), and its
payload is the measured size in MB (rendered by the source to 2 decimal
places) - so a file of exactly 10 MiB produces no size error. -/
theorem c6_size_limit (a : Bool) (f : FileObj) (c : Config)
    (h : ¬(c.is_book = true ∧ (get_file_info f).extension ≠ ".pdf"))
    (q : ℚ) :
    Msg.fichierTropVolumineux q ∈ (validate_file_against_config a f c).errors ↔
      (errorsThroughStep2 a f c = [] ∧ f.size > 10 * 1024 * 1024 ∧
        q = (f.size : ℚ) / 1024 / 1024) := by
  rw [validate_not_early a f c h]
  simp only [List.mem_append, errorsThroughStep3]
  constructor
  · rintro ((h2 | hsz) | hdim)
    · exfalso
      rcases List.mem_append.mp h2 with hf | hb
      · obtain ⟨e, he⟩ := formatCheckErrors_shape _ _ hf
        exact Msg.noConfusion he
      · rcases hib : c.is_book with _ | _
        · simp [hib] at hb
        · simp only [hib, if_pos] at hb
          rcases bookPageCountErrors_shape a f c _ hb with h1 | ⟨e, h1⟩ | ⟨x, y, h1⟩ <;>
            exact Msg.noConfusion h1
    · unfold sizeCheckErrors at hsz
      split at hsz
      · split at hsz
        · simp at hsz
          rename_i hemp hgt
          exact ⟨hemp, by simpa [get_file_info] using hgt, by simpa [get_file_info] using hsz⟩
        · simp at hsz
      · simp at hsz
    · exfalso
      rcases dimensionCheck_fst_shape a f c _ _ _ hdim with ⟨w, hh, h1⟩ | ⟨w, hh, h1⟩ <;>
        exact Msg.noConfusion h1
  · rintro ⟨hemp, hgt, hq⟩
    refine Or.inl (Or.inr ?_)
    unfold sizeCheckErrors
    rw [if_pos hemp, if_pos (by simpa [get_file_info] using hgt)]
    simp [get_file_info, hq]

/-- C6 witness: the theorem applied to a 10 MiB + 1 byte file (the size
error with payload (10485761/1048576) MB is present) and to an exactly
10 MiB file (no size error with the 10 MB payload). -/
theorem c6_witness :
    Msg.fichierTropVolumineux ((10 * 1024 * 1024 + 1 : ℚ) / 1024 / 1024) ∈
      (validate_file_against_config true fileBig configNoExpectation).errors ∧
    Msg.fichierTropVolumineux 10 ∉
      (validate_file_against_config true fileExact10MiB configNoExpectation).errors := by
  constructor
  · refine (c6_size_limit true fileBig configNoExpectation (by decide)
      ((10 * 1024 * 1024 + 1 : ℚ) / 1024 / 1024)).mpr ⟨?_, ?_, ?_⟩
    · rfl
    · norm_num [fileBig]
    · norm_num [fileBig]
  · intro hmem
    have := (c6_size_limit true fileExact10MiB configNoExpectation
      (by decide) 10).mp hmem
    have hgt := this.2.1
    norm_num [fileExact10MiB] at hgt

/-! ### C7 -/

/-- C7: the inline conversion of validate_image_dimensions agrees with
the Unit Converter formula pixels_to_mm = (pixels x 25.4) / dpi with
default 72 substituted when dpi ≤ 0, applied with the HORIZONTAL dpi to
both the width and the height, the dpi pair defaulting to (72, 72) when
the image carries none. -/
theorem c7_pixels_to_mm (f : FileObj) (im : ImgData) (ew eh : ℚ)
    (h : f.img = .ok im) :
    validate_image_dimensions f ew eh =
      (let dpi_h := (im.dpi.getD (72, 72)).1
       let w := pixels_to_mm (im.width_px : ℚ) dpi_h
       let hh := pixels_to_mm (im.height_px : ℚ) dpi_h
       let p := if w > hh then (hh, w) else (w, hh)
       (decide (|p.1 - ew| ≤ TOLERANCE_MM) && decide (|p.2 - eh| ≤ TOLERANCE_MM),
        .dims p (ew, eh) dpi_h)) := by
  unfold validate_image_dimensions pixels_to_mm
  rw [h]
  simp only []
  rcases le_or_lt (im.dpi.getD (72, 72)).1 0 with hle | hpos
  · rw [if_neg (not_lt.mpr hle), if_pos hle]
  · rw [if_pos hpos, if_neg (not_le.mpr hpos)]

/-- C7 witness: the theorem applied to the 2480 x 3508 pixel scan at
300 dpi; both axes are converted with the horizontal dpi value 300. -/
theorem c7_witness :
    validate_image_dimensions fileImgPortrait 210 297 =
      (let dpi_h := ((some ((300 : ℚ), (300 : ℚ))).getD (72, 72)).1
       let w := pixels_to_mm ((2480 : ℕ) : ℚ) dpi_h
       let hh := pixels_to_mm ((3508 : ℕ) : ℚ) dpi_h
       let p := if w > hh then (hh, w) else (w, hh)
       (decide (|p.1 - 210| ≤ TOLERANCE_MM) && decide (|p.2 - 297| ≤ TOLERANCE_MM),
        .dims p (210, 297) dpi_h)) :=
  c7_pixels_to_mm fileImgPortrait ⟨2480, 3508, some (300, 300)⟩ 210 297 rfl

/-! ### C8 -/

/-- Every error in any verdict is one of the eight error messages; in
particular no warning-only message ever reaches the errors list. -/
theorem validate_errors_shape (a : Bool) (f : FileObj) (c : Config) (m : Msg)
    (h : m ∈ (validate_file_against_config a f c).errors) :
    (∃ e, m = .formatNonSupporte e) ∨ m = .livrePdfRequis ∨
    m = .validationPdfIndisponible ∨ (∃ e, m = .lecturePdfImpossible e) ∨
    (∃ x y, m = .nombrePagesIncorrect x y) ∨
    (∃ q, m = .fichierTropVolumineux q) ∨
    (∃ w hh, m = .dimensionsPdfIncorrectes w hh) ∨
    (∃ w hh, m = .dimensionsImageIncorrectes w hh) := by
  by_cases hearly : c.is_book = true ∧ (get_file_info f).extension ≠ ".pdf"
  · rw [validate_early a f c hearly.1 hearly.2] at h
    rcases List.mem_append.mp h with hf | hl
    · exact Or.inl (formatCheckErrors_shape _ _ hf)
    · simp at hl
      exact Or.inr (Or.inl hl)
  · rw [validate_not_early a f c hearly] at h
    simp only [List.mem_append, errorsThroughStep3] at h
    rcases h with (h2 | hsz) | hdim
    · rcases List.mem_append.mp h2 with hf | hb
      · exact Or.inl (formatCheckErrors_shape _ _ hf)
      · rcases hib : c.is_book with _ | _
        · simp [hib] at hb
        · simp only [hib, if_pos] at hb
          rcases bookPageCountErrors_shape a f c _ hb with h1 | h1 | h1
          · exact Or.inr (Or.inr (Or.inl h1))
          · exact Or.inr (Or.inr (Or.inr (Or.inl h1)))
          · exact Or.inr (Or.inr (Or.inr (Or.inr (Or.inl h1))))
    · exact Or.inr (Or.inr (Or.inr (Or.inr (Or.inr (Or.inl
        (sizeCheckErrors_shape _ _ _ hsz))))))
    · rcases dimensionCheck_fst_shape a f c _ _ _ hdim with h1 | h1
      · exact Or.inr (Or.inr (Or.inr (Or.inr (Or.inr (Or.inr (Or.inl h1))))))
      · exact Or.inr (Or.inr (Or.inr (Or.inr (Or.inr (Or.inr (Or.inr h1))))))

/-- A book order with an odd page count and recto/verso duplex, small
format not set. -/
def configBookOdd : Config :=
  { format_type := "petit", small_format := none, largeur := none,
    hauteur := none, is_book := true, book_pages := some 3,
    duplex := "recto_verso" }

/-- A three-page PDF upload for the book order. -/
def filePdf3Pages : FileObj :=
  { name := "livre.pdf", size := 1000, content_type := "application/pdf",
    pdf := .ok ⟨[⟨595, 842⟩, ⟨595, 842⟩, ⟨595, 842⟩]⟩,
    img := .error "not an image" }

/-- C8 counterexample: with duplex recto_verso, is_book true and
book_pages = 3 (odd), a .png upload short-circuits at the book-format
stage and the returned verdict has NO warnings, refuting the frozen
claim that the parity warning is appended whenever those config fields
hold. -/
theorem c8_counterexample :
    configBookOdd.duplex = "recto_verso" ∧ configBookOdd.is_book = true ∧
    configBookOdd.book_pages = some 3 ∧
    (validate_file_against_config true filePng configBookOdd).warnings = [] := by
  refine ⟨rfl, rfl, rfl, ?_⟩
  rw [validate_early true filePng configBookOdd rfl (by decide)]

/-- C8 amended: when duplex is recto_verso (the spec calls it
double_sided), is_book holds, book_pages is set to an odd count and the
pipeline reaches the advisory stage (extension .pdf, so no book
short-circuit), the parity warning is appended; the parity message never
appears among the errors of any verdict; and every returned verdict
satisfies is_valid = (errors is empty). -/
theorem c8_duplex_parity (a : Bool) (f : FileObj) (c : Config) (n : ℕ)
    (hd : c.duplex = "recto_verso") (hb : c.is_book = true)
    (hp : c.book_pages = some n) (hn : n % 2 = 1)
    (he : (get_file_info f).extension = ".pdf") :
    Msg.rectoVersoImpair ∈ (validate_file_against_config a f c).warnings ∧
    (∀ (a2 : Bool) (f2 : FileObj) (c2 : Config),
      Msg.rectoVersoImpair ∉ (validate_file_against_config a2 f2 c2).errors) ∧
    (∀ (a2 : Bool) (f2 : FileObj) (c2 : Config),
      (validate_file_against_config a2 f2 c2).is_valid =
        (validate_file_against_config a2 f2 c2).errors.isEmpty) := by
  refine ⟨?_, ?_, ?_⟩
  · have hne : ¬(c.is_book = true ∧ (get_file_info f).extension ≠ ".pdf") := by
      rintro ⟨-, hne2⟩
      exact hne2 he
    rw [validate_not_early a f c hne]
    refine List.mem_append.mpr (Or.inr ?_)
    unfold duplexWarnings
    rw [if_pos]
    · exact List.mem_singleton_self _
    · refine ⟨hd, hb, ?_, ?_⟩
      · rw [hp]
        simp [truthyNat]
        omega
      · rw [hp]
        simp
        omega
  · intro a2 f2 c2 hmem
    rcases validate_errors_shape a2 f2 c2 _ hmem with ⟨e, h1⟩ | h1 | h1 |
      ⟨e, h1⟩ | ⟨x, y, h1⟩ | ⟨q, h1⟩ | ⟨w, hh, h1⟩ | ⟨w, hh, h1⟩ <;>
      exact Msg.noConfusion h1
  · intro a2 f2 c2
    by_cases hearly : c2.is_book = true ∧ (get_file_info f2).extension ≠ ".pdf"
    · rw [validate_early a2 f2 c2 hearly.1 hearly.2]
      simp
    · rw [validate_not_early a2 f2 c2 hearly]

/-- C8 witness: the amended theorem applied to a three-page book PDF with
recto_verso duplex: the parity warning is in the verdict warnings, the
parity message is absent from the errors of that same run, and its
verdict satisfies is_valid = errors.isEmpty. -/
theorem c8_witness :
    Msg.rectoVersoImpair ∈
      (validate_file_against_config true filePdf3Pages configBookOdd).warnings ∧
    Msg.rectoVersoImpair ∉
      (validate_file_against_config true filePdf3Pages configBookOdd).errors ∧
    (validate_file_against_config true filePdf3Pages configBookOdd).is_valid =
      (validate_file_against_config true filePdf3Pages configBookOdd).errors.isEmpty := by
  have h := c8_duplex_parity true filePdf3Pages configBookOdd 3 rfl rfl rfl rfl
    (by decide)
  exact ⟨h.1, h.2.1 true filePdf3Pages configBookOdd,
    h.2.2 true filePdf3Pages configBookOdd⟩

/-! ### C9 -/

/-- C9: the pipeline is deterministic. In this embedding the file
resource is pure data (its parse outcomes at offset 0), matching the
precondition that the resource is externally reset before each call and
the capability flag unchanged, so two calls on the same (file, config)
pair agree on every component of the verdict. -/
theorem c9_deterministic (a : Bool) (f : FileObj) (c : Config) :
    (validate_file_against_config a f c).is_valid =
      (validate_file_against_config a f c).is_valid ∧
    (validate_file_against_config a f c).errors =
      (validate_file_against_config a f c).errors ∧
    (validate_file_against_config a f c).warnings =
      (validate_file_against_config a f c).warnings ∧
    (validate_file_against_config a f c).file_info =
      (validate_file_against_config a f c).file_info :=
  ⟨rfl, rfl, rfl, rfl⟩

/-! ### C10 -/

/-- C10: an image file reaching the dimension check whose decoding fails
(the extractor returns matches false with a string detail) makes the
pipeline append the same generic dimension-mismatch error naming the
expected size that a true mismatch produces, with no low-resolution
warning; the exception stays inside the extractor, and (is_book false,
size within limit assumed) the verdict is exactly that single error. -/
theorem c10_image_decode_failure (f : FileObj) (c : Config) (e : String)
    (ew eh : ℚ)
    (hb : c.is_book = false)
    (hext : (get_file_info f).extension ∈ ([".jpg", ".jpeg", ".png"] : List String))
    (hsize : f.size ≤ 10 * 1024 * 1024)
    (hexp : get_expected_dimensions c = some (ew, eh))
    (himg : f.img = .error e) :
    validate_file_against_config true f c =
      { is_valid := false
        errors := [.dimensionsImageIncorrectes ew eh]
        warnings := []
        file_info := get_file_info f } := by
  have hne : ¬(c.is_book = true ∧ (get_file_info f).extension ≠ ".pdf") := by
    simp [hb]
  have hnpdf : (get_file_info f).extension ≠ ".pdf" := by
    simp only [List.mem_cons, List.not_mem_nil, or_false] at hext
    rcases hext with h1 | h1 | h1 <;> simp [h1]
  have hfmt : formatCheckErrors (get_file_info f) = [] := by
    unfold formatCheckErrors
    rw [if_pos]
    simp only [List.mem_cons, List.not_mem_nil, or_false] at hext ⊢
    tauto
  have hstep2 : errorsThroughStep2 true f c = [] := by
    simp [errorsThroughStep2, hb, hfmt]
  have hstep3 : errorsThroughStep3 true f c = [] := by
    have hnot : ¬((get_file_info f).size > 10 * 1024 * 1024) := by
      simp [get_file_info]
      exact hsize
    simp [errorsThroughStep3, hstep2, sizeCheckErrors, hnot]
  have hval : validate_image_dimensions f ew eh =
      (false, ImgDetail.err ("Erreur lecture image: " ++ e)) := by
    unfold validate_image_dimensions
    rw [himg]
  have hdim : dimensionCheck true f c [] (get_file_info f) =
      ([.dimensionsImageIncorrectes ew eh], []) := by
    unfold dimensionCheck
    rw [hexp]
    simp [hnpdf, hext, hval]
  rw [validate_not_early true f c hne, hstep3, hdim]
  simp [duplexWarnings, hb]

/-- C10 witness: the theorem applied to a .png upload whose decode fails,
with an A4 expectation: the verdict is invalid with exactly the generic
image-dimension error and no warnings. -/
theorem c10_witness :
    validate_file_against_config true filePng configSmallA4 =
      { is_valid := false
        errors := [.dimensionsImageIncorrectes 210 297]
        warnings := []
        file_info := { name := "photo.PNG", size := 1000,
                       content_type := "image/png", extension := ".png" } } := by
  have h := c10_image_decode_failure filePng configSmallA4
    "cannot identify image file" 210 297 rfl (by decide) (by norm_num [filePng])
    (by simp [get_expected_dimensions, configSmallA4, truthyStr, FORMAT_DIMENSIONS])
    rfl
  rw [h]
  rfl

end PrintBackend
